import Mathlib

/-!
Shallow embedding of the `NativeCell` React component
(`src/datascience-ui/native-editor/nativeCell.tsx`) and of
`JupyterDebuggerNotInstalledError`
(`src/client/datascience/jupyter/jupyterDebuggerNotInstalledError.ts`)
from the vscode-python repository, together with theorems settling the
frozen claims about them.

The component's event handlers are modelled as pure functions from the
component's props, the transient component state (`lastKeyPressed`, the
editor/wrapper refs) and the incoming event to the list of Redux actions
dispatched, in dispatch order, plus the updated `lastKeyPressed` value.
-/

/-! ## Data model -/

/-- `cell_type` of the cell data (`'code' | 'markdown' | 'messages'`). -/
inductive CellType
  | code
  | markdown
  | messages
deriving DecidableEq, Repr

/-- nbformat multiline string: a plain string or an array of strings. -/
inductive MultilineString
  | str (s : String)
  | arr (ls : List String)
deriving DecidableEq, Repr

/-- `CellState` from `src/client/datascience/types.ts` (outside the slice;
constructor names from its uses in `nativeCell.tsx`: `init`, `executing`,
`finished`, `error`, plus `editing` for completeness of the enum). -/
inductive CellState
  | editing
  | init
  | executing
  | finished
  | error
deriving DecidableEq, Repr

/-- The cell's nbformat-style data record. Output payloads are opaque to
this component, so each output is modelled as an opaque string; a
`messages` cell carries its list of messages. -/
structure CellData where
  cell_type : CellType
  source : MultilineString
  execution_count : Option Int
  outputs : List String
  messages : List String
deriving DecidableEq, Repr

/-- An `ICell`: id, data and execution state. -/
structure ICell where
  id : String
  data : CellData
  state : CellState
deriving DecidableEq, Repr

/-- The cell view-model (`ICellViewModel` from
`interactive-common/mainState.ts`), restricted to the fields this
component reads. -/
structure ICellViewModel where
  cell : ICell
  selected : Bool
  focused : Bool
  editable : Bool
  inputBlockShow : Bool
  hideOutput : Bool
  showLineNumbers : Bool
  hasBeenRun : Option Bool
deriving DecidableEq, Repr

/-- `IFont` (size and family). -/
structure IFont where
  size : Nat
  family : String
deriving DecidableEq, Repr

/-- Monaco editor options are an opaque configuration record for this
component; modelled as a key/value list. -/
abbrev IEditorOptions := List (String × String)

/-- `INativeCellBaseProps`: the data props of the component. The
remaining props (`typeof actionCreators`) are the injected action-creator
functions, which are identity-stable and are modelled as the dispatch
effects of the handlers below rather than as record fields. -/
structure INativeCellBaseProps where
  role : Option String
  cellVM : ICellViewModel
  baseTheme : String
  codeTheme : String
  testMode : Option Bool
  maxTextSize : Option Nat
  monacoTheme : Option String
  lastCell : Bool
  firstCell : Bool
  font : IFont
  allowUndo : Bool
  enableGather : Option Bool
  editorOptions : IEditorOptions
  themeMatplotlibPlots : Option Bool
deriving DecidableEq, Repr

/-! ## fast-deep-equal and shouldComponentUpdate

`fast-deep-equal` recursively compares records field by field, arrays
element by element, and primitives by value. The recursive comparison is
spelled out structure by structure, mirroring how the library descends
into the props record. -/

/-- Deep comparison of multiline sources (string vs string array). -/
def multilineStringEqual : MultilineString → MultilineString → Bool
  | .str a, .str b => a == b
  | .arr a, .arr b => a == b
  | _, _ => false

/-- Deep comparison of cell data records. -/
def cellDataEqual (a b : CellData) : Bool :=
  a.cell_type == b.cell_type &&
    multilineStringEqual a.source b.source &&
    a.execution_count == b.execution_count &&
    a.outputs == b.outputs &&
    a.messages == b.messages

/-- Deep comparison of cells. -/
def cellEqual (a b : ICell) : Bool :=
  a.id == b.id && cellDataEqual a.data b.data && a.state == b.state

/-- Deep comparison of cell view-models. -/
def cellVMEqual (a b : ICellViewModel) : Bool :=
  cellEqual a.cell b.cell &&
    a.selected == b.selected &&
    a.focused == b.focused &&
    a.editable == b.editable &&
    a.inputBlockShow == b.inputBlockShow &&
    a.hideOutput == b.hideOutput &&
    a.showLineNumbers == b.showLineNumbers &&
    a.hasBeenRun == b.hasBeenRun

/-- Deep comparison of fonts. -/
def fontEqual (a b : IFont) : Bool :=
  a.size == b.size && a.family == b.family

/-- `fastDeepEqual` applied to the component's props record. -/
def fastDeepEqual (a b : INativeCellBaseProps) : Bool :=
  a.role == b.role &&
    cellVMEqual a.cellVM b.cellVM &&
    a.baseTheme == b.baseTheme &&
    a.codeTheme == b.codeTheme &&
    a.testMode == b.testMode &&
    a.maxTextSize == b.maxTextSize &&
    a.monacoTheme == b.monacoTheme &&
    a.lastCell == b.lastCell &&
    a.firstCell == b.firstCell &&
    fontEqual a.font b.font &&
    a.allowUndo == b.allowUndo &&
    a.enableGather == b.enableGather &&
    a.editorOptions == b.editorOptions &&
    a.themeMatplotlibPlots == b.themeMatplotlibPlots

/-- `NativeCell.shouldComponentUpdate`: `!fastDeepEqual(this.props, nextProps)`. -/
def shouldComponentUpdate (props nextProps : INativeCellBaseProps) : Bool :=
  !fastDeepEqual props nextProps

/-! ## Events, actions and the keyboard handler -/

/-- `OSType` from `src/client/common/utils/platform.ts` (outside the
slice; constructor names from its uses: `OSX` is compared against). -/
inductive OSType
  | Windows
  | OSX
  | Linux
  | Unknown
deriving DecidableEq, Repr

/-- `e.editorInfo` payload of an `IKeyboardEvent` (fields from its uses
in `nativeCell.tsx`: `isSuggesting`, `isFirstLine`, `isLastLine`,
`contents`). -/
structure IEditorInfo where
  isSuggesting : Bool
  isFirstLine : Bool
  isLastLine : Bool
  contents : String
deriving DecidableEq, Repr

/-- `IKeyboardEvent` (from `react-common/event.ts`, outside the slice;
fields from its uses in `nativeCell.tsx`). `stopPropagation` and
`preventDefault` are DOM effects, not dispatches, and are not modelled. -/
structure IKeyboardEvent where
  code : String
  shiftKey : Bool
  ctrlKey : Bool
  altKey : Bool
  metaKey : Bool
  editorInfo : Option IEditorInfo
deriving DecidableEq, Repr

/-- `NativeCommandType` values sent via `sendCommand`. -/
inductive NativeCommandType
  | ChangeToCode
  | ChangeToMarkdown
  | ToggleLineNumbers
  | ToggleOutput
  | RunAndMove
  | RunAndAdd
  | Run
  | DeleteCell
  | InsertAbove
  | InsertBelow
  | Redo
  | Undo
  | Unfocus
  | ArrowUp
  | ArrowDown
deriving DecidableEq, Repr

/-- The `moveOp` argument of `executeCell`: `'add' | 'select' | 'none'`. -/
inductive MoveOp
  | add
  | select
  | none
deriving DecidableEq, Repr

/-- `CursorPos` from `interactive-common/mainState.ts`. -/
inductive CursorPos
  | Current
  | Top
  | Bottom
deriving DecidableEq, Repr

/-- A dispatched Redux action (one constructor per action creator the
component invokes from its event handlers). -/
inductive UIAction
  | save
  | changeCellType (cellId : String) (currentCode : String)
  | toggleLineNumbers (cellId : String)
  | toggleOutput (cellId : String)
  | executeCell (cellId : String) (code : String) (moveOp : MoveOp)
  | deleteCell (cellId : String)
  | insertAbove (cellId : String)
  | insertBelow (cellId : String)
  | redo
  | undo
  | arrowUp (cellId : String) (code : String)
  | arrowDown (cellId : String) (code : String)
  | focusCell (cellId : String) (cursorPos : CursorPos)
  | selectCell (cellId : String)
  | sendCommand (command : NativeCommandType) (source : String)
deriving DecidableEq, Repr

/-- Transient component environment outside the props: the host OS, the
contents held by the `CellInput` ref (`this.inputRef.current` resolved to
its `getContents()` value, `none` when the ref is empty), and whether the
wrapper `div` ref is populated. -/
structure CellEnv where
  os : OSType
  inputContents : Option String
  wrapperRefCurrent : Bool
deriving DecidableEq, Repr

/-- Modelled from the spec: `concatMultilineStringInput`
(`src/client/datascience/common.ts`, outside the slice) concatenates a
cell's possibly-multiline source — a string or an array of strings —
into one string. -/
def concatMultilineStringInput : MultilineString → String
  | .str s => s
  | .arr ls => String.join ls

/-- `NativeCell.isCodeCell`. -/
def isCodeCell (props : INativeCellBaseProps) : Bool :=
  props.cellVM.cell.data.cell_type == CellType.code

/-- `NativeCell.isMarkdownCell`. -/
def isMarkdownCell (props : INativeCellBaseProps) : Bool :=
  props.cellVM.cell.data.cell_type == CellType.markdown

/-- `NativeCell.isSelected`. -/
def isSelected (props : INativeCellBaseProps) : Bool :=
  props.cellVM.selected

/-- `NativeCell.isFocused`. -/
def isFocused (props : INativeCellBaseProps) : Bool :=
  props.cellVM.focused

/-- `NativeCell.getCurrentCode`: the input ref's contents when the ref is
open and its contents are truthy (non-empty), otherwise the concatenated
cell source (`contents || concatMultilineStringInput(...)`). -/
def getCurrentCode (env : CellEnv) (props : INativeCellBaseProps) : String :=
  match env.inputContents with
  | some contents =>
    if contents == "" then concatMultilineStringInput props.cellVM.cell.data.source
    else contents
  | Option.none => concatMultilineStringInput props.cellVM.cell.data.source

/-- `this.isFocused() && e.editorInfo && !e.editorInfo.isSuggesting`
coerced to a boolean, as the `switch` uses it. -/
def isFocusedWhenNotSuggesting (props : INativeCellBaseProps)
    (e : IKeyboardEvent) : Bool :=
  isFocused props &&
    (match e.editorInfo with
     | some info => !info.isSuggesting
     | Option.none => false)

/-- `e.editorInfo!.isFirstLine`, guarded in the source by
`isFocusedWhenNotSuggesting` (which forces `editorInfo` present). -/
def editorIsFirstLine (e : IKeyboardEvent) : Bool :=
  match e.editorInfo with
  | some info => info.isFirstLine
  | Option.none => false

/-- `e.editorInfo!.isLastLine`, guarded as in `editorIsFirstLine`. -/
def editorIsLastLine (e : IKeyboardEvent) : Bool :=
  match e.editorInfo with
  | some info => info.isLastLine
  | Option.none => false

/-- `NativeCell.arrowUpFromCell` (uses `this.cellId`). -/
def arrowUpFromCell (env : CellEnv) (props : INativeCellBaseProps) : List UIAction :=
  [UIAction.arrowUp props.cellVM.cell.id (getCurrentCode env props),
   UIAction.sendCommand NativeCommandType.ArrowUp "keyboard"]

/-- `NativeCell.arrowDownFromCell` (uses `this.cellId`). -/
def arrowDownFromCell (env : CellEnv) (props : INativeCellBaseProps) : List UIAction :=
  [UIAction.arrowDown props.cellVM.cell.id (getCurrentCode env props),
   UIAction.sendCommand NativeCommandType.ArrowDown "keyboard"]

/-- `NativeCell.escapeCell`: refocuses the wrapper (a DOM effect) and
sends `Unfocus`, guarded by the wrapper ref being populated and the cell
being focused. -/
def escapeCell (env : CellEnv) (props : INativeCellBaseProps) : List UIAction :=
  if env.wrapperRefCurrent && isFocused props then
    [UIAction.sendCommand NativeCommandType.Unfocus "keyboard"]
  else []

/-- `NativeCell.enterCell`. The source also checks `this.wrapperRef`
(the ref object itself, not its `current`), which is always truthy. -/
def enterCell (props : INativeCellBaseProps) (e : IKeyboardEvent) : List UIAction :=
  if !isFocused props && e.editorInfo == Option.none && isSelected props then
    [UIAction.focusCell props.cellVM.cell.id CursorPos.Current]
  else []

/-- The `content` resolved by `NativeCell.submitCell`: the supplied
editor contents when defined, otherwise the concatenated cell source. -/
def submitContent (props : INativeCellBaseProps)
    (possibleContents : Option String) : String :=
  match possibleContents with
  | some c => c
  | Option.none => concatMultilineStringInput props.cellVM.cell.data.source

/-- `NativeCell.submitCell`: dispatches `executeCell` with the resolved
content and the move operation, but only when the content is truthy
(`if (content)`), i.e. non-empty. -/
def submitCell (props : INativeCellBaseProps)
    (possibleContents : Option String) (moveOp : MoveOp) : List UIAction :=
  let content := submitContent props possibleContents
  if content == "" then []
  else [UIAction.executeCell props.cellVM.cell.id content moveOp]

/-- `NativeCell.runAndMove`: submit with `'add'` on the last cell,
`'select'` otherwise. -/
def runAndMove (props : INativeCellBaseProps)
    (possibleContents : Option String) : List UIAction :=
  submitCell props possibleContents (if props.lastCell then MoveOp.add else MoveOp.select)

/-- `NativeCell.runAndAdd`. -/
def runAndAdd (props : INativeCellBaseProps)
    (possibleContents : Option String) : List UIAction :=
  submitCell props possibleContents MoveOp.add

/-- `NativeCell.shiftEnterCell`: submit-and-move, then send `RunAndMove`. -/
def shiftEnterCell (props : INativeCellBaseProps) (e : IKeyboardEvent) : List UIAction :=
  runAndMove props (e.editorInfo.map IEditorInfo.contents) ++
    [UIAction.sendCommand NativeCommandType.RunAndMove "keyboard"]

/-- `NativeCell.altEnterCell`: submit-and-add, then send `RunAndAdd`. -/
def altEnterCell (props : INativeCellBaseProps) (e : IKeyboardEvent) : List UIAction :=
  runAndAdd props (e.editorInfo.map IEditorInfo.contents) ++
    [UIAction.sendCommand NativeCommandType.RunAndAdd "keyboard"]

/-- `NativeCell.ctrlEnterCell`: submit with `'none'`, then send `Run`. -/
def ctrlEnterCell (props : INativeCellBaseProps) (e : IKeyboardEvent) : List UIAction :=
  submitCell props (e.editorInfo.map IEditorInfo.contents) MoveOp.none ++
    [UIAction.sendCommand NativeCommandType.Run "keyboard"]

/-- `NativeCell.keyDownInput`: the keyboard `switch`, as a pure function
from the environment, props, the `lastKeyPressed` tracker, the `cellId`
argument and the event to the dispatched actions (in dispatch order) and
the new tracker value. The `'d'` branch assigns
`this.lastKeyPressed = undefined` before dispatching the delete, but the
trailing unconditional `this.lastKeyPressed = e.code` after the `switch`
overwrites it, so the returned tracker is always `e.code`. -/
def keyDownInput (env : CellEnv) (props : INativeCellBaseProps)
    (lastKeyPressed : Option String) (cellId : String)
    (e : IKeyboardEvent) : List UIAction × Option String :=
  let actions : List UIAction :=
    if e.code == "ArrowUp" || e.code == "k" then
      if (isFocusedWhenNotSuggesting props e && editorIsFirstLine e && !e.shiftKey)
          || !isFocused props then
        arrowUpFromCell env props
      else []
    else if e.code == "ArrowDown" || e.code == "j" then
      if (isFocusedWhenNotSuggesting props e && editorIsLastLine e && !e.shiftKey)
          || !isFocused props then
        arrowDownFromCell env props
      else []
    else if e.code == "s" then
      if (e.ctrlKey && !(env.os == OSType.OSX)) || (e.metaKey && env.os == OSType.OSX) then
        [UIAction.save]
      else []
    else if e.code == "Escape" then
      if isFocusedWhenNotSuggesting props e then escapeCell env props else []
    else if e.code == "y" then
      if !isFocused props && isSelected props && isMarkdownCell props then
        [UIAction.changeCellType cellId (getCurrentCode env props),
         UIAction.sendCommand NativeCommandType.ChangeToCode "keyboard"]
      else []
    else if e.code == "m" then
      if !isFocused props && isSelected props && isCodeCell props then
        [UIAction.changeCellType cellId (getCurrentCode env props),
         UIAction.sendCommand NativeCommandType.ChangeToMarkdown "keyboard"]
      else []
    else if e.code == "l" then
      if !isFocused props && isSelected props then
        [UIAction.toggleLineNumbers cellId,
         UIAction.sendCommand NativeCommandType.ToggleLineNumbers "keyboard"]
      else []
    else if e.code == "o" then
      if !isFocused props && isSelected props then
        [UIAction.toggleOutput cellId,
         UIAction.sendCommand NativeCommandType.ToggleOutput "keyboard"]
      else []
    else if e.code == "Enter" then
      if e.shiftKey then shiftEnterCell props e
      else if e.ctrlKey then ctrlEnterCell props e
      else if e.altKey then altEnterCell props e
      else enterCell props e
    else if e.code == "d" then
      if lastKeyPressed == some "d" && !isFocused props && isSelected props then
        [UIAction.deleteCell cellId,
         UIAction.sendCommand NativeCommandType.DeleteCell "keyboard"]
      else []
    else if e.code == "a" then
      if !isFocused props then
        [UIAction.insertAbove cellId,
         UIAction.sendCommand NativeCommandType.InsertAbove "keyboard"]
      else []
    else if e.code == "b" then
      if !isFocused props then
        [UIAction.insertBelow cellId,
         UIAction.sendCommand NativeCommandType.InsertBelow "keyboard"]
      else []
    else if e.code == "z" || e.code == "Z" then
      if !isFocused props then
        if e.shiftKey && !e.ctrlKey && !e.altKey then
          [UIAction.redo, UIAction.sendCommand NativeCommandType.Redo "keyboard"]
        else if !e.shiftKey && !e.altKey && !e.ctrlKey then
          [UIAction.undo, UIAction.sendCommand NativeCommandType.Undo "keyboard"]
        else []
      else []
    else []
  (actions, some e.code)

/-! ## Mouse handlers and render -/

/-- JS `String.prototype.includes`: substring containment. -/
def stringIncludes (s sub : String) : Bool :=
  decide (sub.toList <:+: s.toList)

/-- The DOM element a mouse event targets, restricted to what
`onMouseClick` reads: its `className`, plus whether that `className`
value has an `includes` method (an SVG element's `className` is an
`SVGAnimatedString` without one, which the source guards against with
`!elem.className.includes`). -/
structure ClickTarget where
  className : String
  classNameHasIncludes : Bool
deriving DecidableEq, Repr

/-- A mouse event, restricted to `ev.nativeEvent.target`. -/
structure IMouseEvent where
  target : Option ClickTarget
deriving DecidableEq, Repr

/-- `NativeCell.onMouseClick`: when the target exists and is not an
`image-button` element (or its `className` has no `includes` method),
clear `lastKeyPressed` and dispatch `selectCell` for this cell. Returns
the dispatched actions and the new `lastKeyPressed`. -/
def onMouseClick (props : INativeCellBaseProps) (lastKeyPressed : Option String)
    (ev : IMouseEvent) : List UIAction × Option String :=
  match ev.target with
  | some elem =>
    if !elem.classNameHasIncludes || !stringIncludes elem.className "image-button" then
      ([UIAction.selectCell props.cellVM.cell.id], Option.none)
    else ([], lastKeyPressed)
  | Option.none => ([], lastKeyPressed)

/-- `NativeCell.onMouseDoubleClick`: dispatch `focusCell` for this cell
at the current cursor position. -/
def onMouseDoubleClick (props : INativeCellBaseProps) : List UIAction :=
  [UIAction.focusCell props.cellVM.cell.id CursorPos.Current]

/-- `cellOuterClass` computed by `renderNormalCell`. -/
def cellOuterClass (props : INativeCellBaseProps) : String :=
  if props.cellVM.editable then "cell-outer-editable" else "cell-outer"

/-- `cellWrapperClass` computed by `renderNormalCell`. -/
def cellWrapperClass (props : INativeCellBaseProps) : String :=
  let c0 := if props.cellVM.editable then "cell-wrapper"
            else "cell-wrapper cell-wrapper-noneditable"
  let c1 := if isSelected props && !isFocused props then
              c0 ++ " cell-wrapper-selected"
            else c0
  if isFocused props then c1 ++ " cell-wrapper-focused" else c1

/-- The top-level shape of the markup `NativeCell.render` returns:
either the `InformationMessages` view or the normal cell wrapper
(summarised by its computed class names). -/
inductive RenderResult
  | informationMessages (messages : List String)
  | normalCell (wrapperClass : String) (outerClass : String)
deriving DecidableEq, Repr

/-- `NativeCell.renderNormalCell`, summarised to the top-level wrapper
markup it returns. -/
def renderNormalCell (props : INativeCellBaseProps) : RenderResult :=
  RenderResult.normalCell (cellWrapperClass props) (cellOuterClass props)

/-- `NativeCell.render`: the `InformationMessages` view when
`cell_type === 'messages'`, otherwise the normal cell. -/
def render (props : INativeCellBaseProps) : RenderResult :=
  if props.cellVM.cell.data.cell_type == CellType.messages then
    RenderResult.informationMessages props.cellVM.cell.data.messages
  else renderNormalCell props

/-! ## JupyterDebuggerNotInstalledError -/

/-- The message the `JupyterDebuggerNotInstalledError` constructor passes
to `super`: `message ? message : localize.DataScience.jupyterDebuggerNotInstalledError()`.
Modelled from the spec: the localized default string is produced by
`localize.DataScience.jupyterDebuggerNotInstalledError` in
`src/client/common/utils/localize.ts`, outside the slice, and is taken
here as the parameter `localizedDefault`. An omitted (`none`) or empty
message is falsy, selecting the default. -/
def jupyterDebuggerNotInstalledErrorMessage (localizedDefault : String)
    (message : Option String) : String :=
  match message with
  | some m => if m == "" then localizedDefault else m
  | Option.none => localizedDefault

/-! ## Concrete fixtures used by witnesses and counterexamples -/

/-- A concrete cell view-model with the given type, source, selection and
focus flags. -/
def mkCellVM (t : CellType) (src : MultilineString) (sel foc : Bool) : ICellViewModel :=
  { cell := { id := "cell-1",
              data := { cell_type := t, source := src,
                        execution_count := Option.none, outputs := [], messages := [] },
              state := CellState.init },
    selected := sel, focused := foc, editable := true, inputBlockShow := true,
    hideOutput := false, showLineNumbers := false, hasBeenRun := Option.none }

/-- A concrete props record around `mkCellVM`; `theme` is an example of a
prop the keyboard handler never reads. -/
def mkProps (t : CellType) (src : MultilineString) (sel foc lastC : Bool)
    (theme : String) : INativeCellBaseProps :=
  { role := Option.none, cellVM := mkCellVM t src sel foc, baseTheme := theme,
    codeTheme := "code", testMode := Option.none, maxTextSize := Option.none,
    monacoTheme := Option.none, lastCell := lastC, firstCell := false,
    font := { size := 14, family := "monospace" }, allowUndo := true,
    enableGather := Option.none, editorOptions := [],
    themeMatplotlibPlots := Option.none }

/-- A concrete environment: Linux, no open editor ref, wrapper ref set. -/
def sampleEnv : CellEnv :=
  { os := OSType.Linux, inputContents := Option.none, wrapperRefCurrent := true }

/-- Whether an action is an `executeCell` dispatch. -/
def isExecuteCellAction : UIAction → Bool
  | UIAction.executeCell _ _ _ => true
  | _ => false

/-- Whether a render result is the normal cell wrapper. -/
def isNormalCellRender : RenderResult → Bool
  | RenderResult.normalCell _ _ => true
  | _ => false

/-! ## Theorems -/

theorem multilineStringEqual_iff (a b : MultilineString) :
    multilineStringEqual a b = true ↔ a = b := by
  cases a <;> cases b <;> simp [multilineStringEqual]

theorem cellDataEqual_iff (a b : CellData) :
    cellDataEqual a b = true ↔ a = b := by
  cases a; cases b
  simp [cellDataEqual, multilineStringEqual_iff, CellData.mk.injEq, and_assoc]

theorem cellEqual_iff (a b : ICell) : cellEqual a b = true ↔ a = b := by
  cases a; cases b
  simp [cellEqual, cellDataEqual_iff, ICell.mk.injEq, and_assoc]

theorem cellVMEqual_iff (a b : ICellViewModel) :
    cellVMEqual a b = true ↔ a = b := by
  cases a; cases b
  simp [cellVMEqual, cellEqual_iff, ICellViewModel.mk.injEq, and_assoc]

theorem fontEqual_iff (a b : IFont) : fontEqual a b = true ↔ a = b := by
  cases a; cases b
  simp [fontEqual, IFont.mk.injEq]

theorem fastDeepEqual_iff (a b : INativeCellBaseProps) :
    fastDeepEqual a b = true ↔ a = b := by
  cases a; cases b
  simp [fastDeepEqual, cellVMEqual_iff, fontEqual_iff,
    INativeCellBaseProps.mk.injEq, and_assoc]

/-- C1: `shouldComponentUpdate` returns `false` exactly when the current
props and the next props are deep-equal; the component re-renders on a
prop change only when the new props are not deep-equal to the old ones. -/
theorem shouldComponentUpdate_false_iff_deepEqual
    (props nextProps : INativeCellBaseProps) :
    shouldComponentUpdate props nextProps = false ↔ props = nextProps := by
  simp [shouldComponentUpdate, fastDeepEqual_iff]

/-! ## Claims -/

/-- C2 counterexample: two runs of `keyDownInput` that agree on key code
(`'m'`), all modifier flags, host OS, and the cell's focused (`false`)
and selected (`true`) flags, but differ in the cell's type — a prop
outside the claim's agreement set — dispatch different actions: the code
cell gets `changeCellType`, the markdown cell gets nothing. -/
theorem keyDownInput_depends_on_cell_type :
    (keyDownInput sampleEnv (mkProps CellType.code (.str "x = 1") true false false "dark")
        Option.none "cell-1"
        { code := "m", shiftKey := false, ctrlKey := false, altKey := false,
          metaKey := false, editorInfo := Option.none }).1 ≠
      (keyDownInput sampleEnv (mkProps CellType.markdown (.str "x = 1") true false false "dark")
        Option.none "cell-1"
        { code := "m", shiftKey := false, ctrlKey := false, altKey := false,
          metaKey := false, editorInfo := Option.none }).1 := by
  decide

/-- C3 counterexample: a Shift+Enter keyboard event whose editor info is
present but holds empty contents dispatches no `executeCell` at all —
only the `RunAndMove` command is sent — although the claim requires an
`executeCell` with the editor contents for every Shift+Enter event. -/
theorem shiftEnter_empty_contents_no_execute :
    (keyDownInput sampleEnv (mkProps CellType.code (.str "x = 1") true true false "dark")
        Option.none "cell-1"
        { code := "Enter", shiftKey := true, ctrlKey := false, altKey := false,
          metaKey := false,
          editorInfo := some { isSuggesting := false, isFirstLine := false,
                               isLastLine := false, contents := "" } }).1 =
      [UIAction.sendCommand NativeCommandType.RunAndMove "keyboard"] ∧
    ((keyDownInput sampleEnv (mkProps CellType.code (.str "x = 1") true true false "dark")
        Option.none "cell-1"
        { code := "Enter", shiftKey := true, ctrlKey := false, altKey := false,
          metaKey := false,
          editorInfo := some { isSuggesting := false, isFirstLine := false,
                               isLastLine := false, contents := "" } }).1.all
      (fun a => !isExecuteCellAction a)) = true := by
  constructor <;> decide

/-- C4: on a non-focused, selected cell, the first `'d'` press dispatches
nothing and sets the tracker to `'d'`; the second `'d'` press dispatches
`deleteCell` — but the handler returns the tracker as `'d'` again (the
trailing `this.lastKeyPressed = e.code` overwrites the in-branch reset),
so a third identical `'d'` press dispatches another `deleteCell`, against
the claim (and the source's own comment `// Reset it so we don't keep
deleting`). -/
theorem keyDownInput_double_d_tracker_not_reset :
    (keyDownInput sampleEnv (mkProps CellType.code (.str "x = 1") true false false "dark")
        Option.none "cell-1"
        { code := "d", shiftKey := false, ctrlKey := false, altKey := false,
          metaKey := false, editorInfo := Option.none }) = ([], some "d") ∧
    (keyDownInput sampleEnv (mkProps CellType.code (.str "x = 1") true false false "dark")
        (some "d") "cell-1"
        { code := "d", shiftKey := false, ctrlKey := false, altKey := false,
          metaKey := false, editorInfo := Option.none }) =
      ([UIAction.deleteCell "cell-1",
        UIAction.sendCommand NativeCommandType.DeleteCell "keyboard"], some "d") := by
  constructor <;> decide

/-- C7: a single click whose target is not an `image-button` element (or
whose `className` has no `includes` method) dispatches `selectCell` for
this cell's id and clears the last-key tracker; a double click dispatches
`focusCell` for this cell's id with cursor position `Current`. -/
theorem onMouseClick_select_doubleClick_focus :
    (∀ (p : INativeCellBaseProps) (lk : Option String) (ev : IMouseEvent)
        (elem : ClickTarget), ev.target = some elem →
      (elem.classNameHasIncludes = false ∨
        stringIncludes elem.className "image-button" = false) →
      onMouseClick p lk ev = ([UIAction.selectCell p.cellVM.cell.id], Option.none)) ∧
    (∀ p : INativeCellBaseProps,
      onMouseDoubleClick p = [UIAction.focusCell p.cellVM.cell.id CursorPos.Current]) := by
  constructor
  · intro p lk ev elem htgt hcond
    rcases hcond with h | h <;> simp [onMouseClick, htgt, h]
  · intro p
    rfl

/-- C7 witness: clicking a plain `cell-wrapper` div of a concrete cell
dispatches `selectCell "cell-1"` and clears the tracker. -/
theorem onMouseClick_select_doubleClick_focus_witness :
    onMouseClick (mkProps CellType.code (.str "x = 1") false false false "dark")
        (some "d") { target := some { className := "cell-wrapper", classNameHasIncludes := true } } =
      ([UIAction.selectCell "cell-1"], Option.none) :=
  onMouseClick_select_doubleClick_focus.1
    (mkProps CellType.code (.str "x = 1") false false false "dark") (some "d")
    { target := some { className := "cell-wrapper", classNameHasIncludes := true } }
    { className := "cell-wrapper", classNameHasIncludes := true }
    rfl (Or.inr (by decide))

/-- C8 counterexample: a view-model whose cell type is `'messages'` makes
`render` return the `InformationMessages` view, not the normal cell
wrapper, so render does have a second top-level branch. -/
theorem render_messages_cell_is_informationMessages :
    render (mkProps CellType.messages (.str "") false false false "dark") =
      RenderResult.informationMessages [] ∧
    isNormalCellRender
      (render (mkProps CellType.messages (.str "") false false false "dark")) = false := by
  constructor <;> decide

/-- C8 amended: for every view-model whose cell type is not `'messages'`
(in particular every code or markdown cell), `render` returns the normal
cell wrapper. -/
theorem render_normal_unless_messages (p : INativeCellBaseProps)
    (h : p.cellVM.cell.data.cell_type ≠ CellType.messages) :
    render p = RenderResult.normalCell (cellWrapperClass p) (cellOuterClass p) := by
  simp [render, renderNormalCell, h]

/-- C8 witness: a concrete code cell renders as the normal cell wrapper. -/
theorem render_normal_unless_messages_witness :
    render (mkProps CellType.code (.str "x = 1") false false false "dark") =
      RenderResult.normalCell
        (cellWrapperClass (mkProps CellType.code (.str "x = 1") false false false "dark"))
        (cellOuterClass (mkProps CellType.code (.str "x = 1") false false false "dark")) :=
  render_normal_unless_messages
    (mkProps CellType.code (.str "x = 1") false false false "dark") (by decide)

/-- C9: submitting with no editor contents on a cell whose concatenated
source is empty dispatches nothing (`if (content)` is falsy). -/
theorem submitCell_empty_source_no_dispatch (p : INativeCellBaseProps) (moveOp : MoveOp)
    (h : concatMultilineStringInput p.cellVM.cell.data.source = "") :
    submitCell p Option.none moveOp = [] := by
  simp [submitCell, submitContent, h]

/-- C9 witness: a concrete cell with empty source submits nothing. -/
theorem submitCell_empty_source_no_dispatch_witness :
    submitCell (mkProps CellType.code (.str "") true false false "dark")
      Option.none MoveOp.select = [] :=
  submitCell_empty_source_no_dispatch
    (mkProps CellType.code (.str "") true false false "dark") MoveOp.select rfl

/-- C10: the error message is the provided message when it is given and
non-empty, and the localized default when the message is omitted or
empty. -/
theorem jupyterDebuggerNotInstalledError_message_resolution
    (localizedDefault : String) :
    (∀ m : String, m ≠ "" →
      jupyterDebuggerNotInstalledErrorMessage localizedDefault (some m) = m) ∧
    jupyterDebuggerNotInstalledErrorMessage localizedDefault (some "") = localizedDefault ∧
    jupyterDebuggerNotInstalledErrorMessage localizedDefault Option.none = localizedDefault := by
  refine ⟨fun m hm => ?_, rfl, rfl⟩
  simp [jupyterDebuggerNotInstalledErrorMessage, hm]

/-- C10 witness: a concrete non-empty message is kept as-is. -/
theorem jupyterDebuggerNotInstalledError_message_resolution_witness :
    jupyterDebuggerNotInstalledErrorMessage "localized default" (some "boom") = "boom" :=
  (jupyterDebuggerNotInstalledError_message_resolution "localized default").1 "boom"
    (by decide)

/-- C2 amended: the dispatched actions are determined by the key event
(code, modifiers, editor info), the host OS, the cell's focused and
selected flags, and additionally the cell's type, id and source, the
last-cell flag, the `cellId` argument, the input/wrapper refs and the
last key pressed — the inputs the handler reads. No other prop
(editability, output visibility, themes, fonts, ...) can influence the
dispatched actions: two runs over props agreeing on just the listed
projections dispatch identically. -/
theorem keyDownInput_reads_only_relevant_state
    (env : CellEnv) (p q : INativeCellBaseProps) (lk : Option String)
    (cid : String) (e : IKeyboardEvent)
    (hfoc : p.cellVM.focused = q.cellVM.focused)
    (hsel : p.cellVM.selected = q.cellVM.selected)
    (hty : p.cellVM.cell.data.cell_type = q.cellVM.cell.data.cell_type)
    (hsrc : p.cellVM.cell.data.source = q.cellVM.cell.data.source)
    (hid : p.cellVM.cell.id = q.cellVM.cell.id)
    (hlast : p.lastCell = q.lastCell) :
    keyDownInput env p lk cid e = keyDownInput env q lk cid e := by
  simp only [keyDownInput, arrowUpFromCell, arrowDownFromCell, escapeCell, enterCell,
    shiftEnterCell, altEnterCell, ctrlEnterCell, runAndMove, runAndAdd, submitCell,
    submitContent, getCurrentCode, isFocusedWhenNotSuggesting, isFocused, isSelected,
    isCodeCell, isMarkdownCell, editorIsFirstLine, editorIsLastLine,
    hfoc, hsel, hty, hsrc, hid, hlast]

/-- C2 witness: two concrete prop records differing only in `baseTheme`
(a prop outside the agreement set) make `keyDownInput` dispatch the same
actions for the same `'m'` key event. -/
theorem keyDownInput_reads_only_relevant_state_witness :
    keyDownInput sampleEnv (mkProps CellType.code (.str "x = 1") true false false "dark")
        Option.none "cell-1"
        { code := "m", shiftKey := false, ctrlKey := false, altKey := false,
          metaKey := false, editorInfo := Option.none } =
      keyDownInput sampleEnv (mkProps CellType.code (.str "x = 1") true false false "light")
        Option.none "cell-1"
        { code := "m", shiftKey := false, ctrlKey := false, altKey := false,
          metaKey := false, editorInfo := Option.none } :=
  keyDownInput_reads_only_relevant_state sampleEnv
    (mkProps CellType.code (.str "x = 1") true false false "dark")
    (mkProps CellType.code (.str "x = 1") true false false "light")
    Option.none "cell-1"
    { code := "m", shiftKey := false, ctrlKey := false, altKey := false,
      metaKey := false, editorInfo := Option.none }
    rfl rfl rfl rfl rfl rfl

/-- C3 amended: Shift+Enter runs the cell whenever the resolved content
(the editor contents when editor info is present, otherwise the
concatenated cell source) is non-empty — dispatching `executeCell` with
that content and move operation `'add'` on the last cell, `'select'`
otherwise — and sends the `RunAndMove` command; when the resolved content
is empty only the `RunAndMove` command is sent. -/
theorem keyDownInput_shiftEnter_runs_cell
    (env : CellEnv) (p : INativeCellBaseProps) (lk : Option String) (cid : String)
    (e : IKeyboardEvent) (hcode : e.code = "Enter") (hshift : e.shiftKey = true) :
    (submitContent p (e.editorInfo.map IEditorInfo.contents) ≠ "" →
      (keyDownInput env p lk cid e).1 =
        [UIAction.executeCell p.cellVM.cell.id
            (submitContent p (e.editorInfo.map IEditorInfo.contents))
            (if p.lastCell then MoveOp.add else MoveOp.select),
         UIAction.sendCommand NativeCommandType.RunAndMove "keyboard"]) ∧
    (submitContent p (e.editorInfo.map IEditorInfo.contents) = "" →
      (keyDownInput env p lk cid e).1 =
        [UIAction.sendCommand NativeCommandType.RunAndMove "keyboard"]) := by
  constructor <;> intro h <;>
    simp [keyDownInput, hcode, hshift, shiftEnterCell, runAndMove, submitCell, h]

/-- C3 witness: Shift+Enter on a concrete last cell with source `x = 1`
and no editor info executes the source with move operation `'add'` and
sends `RunAndMove`. -/
theorem keyDownInput_shiftEnter_runs_cell_witness :
    (keyDownInput sampleEnv (mkProps CellType.code (.str "x = 1") true true true "dark")
        Option.none "cell-1"
        { code := "Enter", shiftKey := true, ctrlKey := false, altKey := false,
          metaKey := false, editorInfo := Option.none }).1 =
      [UIAction.executeCell "cell-1" "x = 1" MoveOp.add,
       UIAction.sendCommand NativeCommandType.RunAndMove "keyboard"] :=
  (keyDownInput_shiftEnter_runs_cell sampleEnv
      (mkProps CellType.code (.str "x = 1") true true true "dark")
      Option.none "cell-1"
      { code := "Enter", shiftKey := true, ctrlKey := false, altKey := false,
        metaKey := false, editorInfo := Option.none }
      rfl rfl).1 (by decide)

/-- C5: `keyDownInput` dispatches `changeCellType` exactly when the cell
is not focused, is selected, and the key is `'y'` on a markdown cell or
`'m'` on a code cell; in the `'y'` case it dispatches `changeCellType`
with the current code and sends `ChangeToCode`, in the `'m'` case it
dispatches `changeCellType` with the current code and sends
`ChangeToMarkdown`; no other key dispatches `changeCellType`. -/
theorem keyDownInput_changeCellType_exactly
    (env : CellEnv) (p : INativeCellBaseProps) (lk : Option String) (cid : String)
    (e : IKeyboardEvent) :
    ((∃ c s, UIAction.changeCellType c s ∈ (keyDownInput env p lk cid e).1) ↔
      (isFocused p = false ∧ isSelected p = true ∧
        ((e.code = "y" ∧ isMarkdownCell p = true) ∨
          (e.code = "m" ∧ isCodeCell p = true)))) ∧
    (e.code = "y" → isFocused p = false → isSelected p = true →
      isMarkdownCell p = true →
      (keyDownInput env p lk cid e).1 =
        [UIAction.changeCellType cid (getCurrentCode env p),
         UIAction.sendCommand NativeCommandType.ChangeToCode "keyboard"]) ∧
    (e.code = "m" → isFocused p = false → isSelected p = true →
      isCodeCell p = true →
      (keyDownInput env p lk cid e).1 =
        [UIAction.changeCellType cid (getCurrentCode env p),
         UIAction.sendCommand NativeCommandType.ChangeToMarkdown "keyboard"]) := by
  refine ⟨⟨?_, ?_⟩, ?_, ?_⟩
  · rintro ⟨c, s, hmem⟩
    by_cases hy : e.code = "y"
    · cases hf : p.cellVM.focused <;> cases hsel : p.cellVM.selected <;>
        cases hmd : p.cellVM.cell.data.cell_type <;>
        simp_all [keyDownInput, isFocused, isSelected, isMarkdownCell, isCodeCell]
    · by_cases hm : e.code = "m"
      · cases hf : p.cellVM.focused <;> cases hsel : p.cellVM.selected <;>
          cases hmd : p.cellVM.cell.data.cell_type <;>
          simp_all [keyDownInput, isFocused, isSelected, isMarkdownCell, isCodeCell]
      · exfalso
        by_cases h1 : e.code = "ArrowUp"
        · simp [keyDownInput, h1, arrowUpFromCell] at hmem
        · by_cases h2 : e.code = "k"
          · simp [keyDownInput, h2, arrowUpFromCell] at hmem
          · by_cases h3 : e.code = "ArrowDown"
            · simp [keyDownInput, h3, arrowDownFromCell] at hmem
            · by_cases h4 : e.code = "j"
              · simp [keyDownInput, h4, arrowDownFromCell] at hmem
              · by_cases h5 : e.code = "s"
                · simp [keyDownInput, h5] at hmem
                · by_cases h6 : e.code = "Escape"
                  · simp [keyDownInput, h6, escapeCell] at hmem
                  · by_cases h7 : e.code = "l"
                    · simp [keyDownInput, h7] at hmem
                    · by_cases h8 : e.code = "o"
                      · simp [keyDownInput, h8] at hmem
                      · by_cases h9 : e.code = "Enter"
                        · simp [keyDownInput, h9, shiftEnterCell, ctrlEnterCell,
                            altEnterCell, enterCell, runAndMove, runAndAdd,
                            submitCell] at hmem
                          split_ifs at hmem <;> simp_all
                        · by_cases h10 : e.code = "d"
                          · simp [keyDownInput, h10] at hmem
                          · by_cases h11 : e.code = "a"
                            · simp [keyDownInput, h11] at hmem
                            · by_cases h12 : e.code = "b"
                              · simp [keyDownInput, h12] at hmem
                              · by_cases h13 : e.code = "z"
                                · simp [keyDownInput, h13] at hmem
                                  obtain ⟨-, hmem⟩ := hmem
                                  split_ifs at hmem <;> simp_all
                                · by_cases h14 : e.code = "Z"
                                  · simp [keyDownInput, h14] at hmem
                                    obtain ⟨-, hmem⟩ := hmem
                                    split_ifs at hmem <;> simp_all
                                  · simp [keyDownInput, h1, h2, h3, h4, h5, h6,
                                      hy, hm, h7, h8, h9, h10, h11, h12, h13,
                                      h14] at hmem
  · rintro ⟨hf, hs, (⟨hc, hty⟩ | ⟨hc, hty⟩)⟩ <;>
      simp only [isFocused, isSelected, isMarkdownCell, isCodeCell,
        beq_iff_eq] at hf hs hty <;>
      exact ⟨cid, getCurrentCode env p,
        by simp [keyDownInput, hc, isFocused, isSelected, isMarkdownCell,
          isCodeCell, hf, hs, hty]⟩
  · intro hc hf hs hm
    simp only [isFocused, isSelected, isMarkdownCell, beq_iff_eq] at hf hs hm
    simp [keyDownInput, hc, isFocused, isSelected, isMarkdownCell, hf, hs, hm]
  · intro hc hf hs hm
    simp only [isFocused, isSelected, isCodeCell, beq_iff_eq] at hf hs hm
    simp [keyDownInput, hc, isFocused, isSelected, isCodeCell, hf, hs, hm]

/-- C5 witness: `'m'` on a concrete selected, non-focused code cell
dispatches `changeCellType` with the current code and sends
`ChangeToMarkdown`. -/
theorem keyDownInput_changeCellType_exactly_witness :
    (keyDownInput sampleEnv (mkProps CellType.code (.str "x = 1") true false false "dark")
        Option.none "cell-1"
        { code := "m", shiftKey := false, ctrlKey := false, altKey := false,
          metaKey := false, editorInfo := Option.none }).1 =
      [UIAction.changeCellType "cell-1"
          (getCurrentCode sampleEnv (mkProps CellType.code (.str "x = 1") true false false "dark")),
       UIAction.sendCommand NativeCommandType.ChangeToMarkdown "keyboard"] :=
  (keyDownInput_changeCellType_exactly sampleEnv
      (mkProps CellType.code (.str "x = 1") true false false "dark")
      Option.none "cell-1"
      { code := "m", shiftKey := false, ctrlKey := false, altKey := false,
        metaKey := false, editorInfo := Option.none }).2.2
    rfl rfl rfl (by decide)

/-- C6: on a `'z'`/`'Z'` key event, a non-focused cell gets `redo` when
shift is held without ctrl or alt, `undo` when none of shift, ctrl, alt
is held, and nothing when ctrl or alt is held; a focused cell gets
neither `undo` nor `redo`. -/
theorem keyDownInput_undo_redo_on_z
    (env : CellEnv) (p : INativeCellBaseProps) (lk : Option String) (cid : String)
    (e : IKeyboardEvent) (hz : e.code = "z" ∨ e.code = "Z") :
    (isFocused p = true →
      UIAction.redo ∉ (keyDownInput env p lk cid e).1 ∧
      UIAction.undo ∉ (keyDownInput env p lk cid e).1) ∧
    (isFocused p = false → e.shiftKey = true → e.ctrlKey = false → e.altKey = false →
      (keyDownInput env p lk cid e).1 =
        [UIAction.redo, UIAction.sendCommand NativeCommandType.Redo "keyboard"]) ∧
    (isFocused p = false → e.shiftKey = false → e.ctrlKey = false → e.altKey = false →
      (keyDownInput env p lk cid e).1 =
        [UIAction.undo, UIAction.sendCommand NativeCommandType.Undo "keyboard"]) ∧
    (isFocused p = false → (e.ctrlKey = true ∨ e.altKey = true) →
      (keyDownInput env p lk cid e).1 = []) := by
  rcases hz with h | h <;>
  · refine ⟨fun hfoc => ?_, fun hfoc hs hc ha => ?_, fun hfoc hs hc ha => ?_,
      fun hfoc hca => ?_⟩
    · simp [keyDownInput, h, hfoc]
    · simp [keyDownInput, h, hfoc, hs, hc, ha]
    · simp [keyDownInput, h, hfoc, hs, hc, ha]
    · rcases hca with hc | ha
      · cases hsk : e.shiftKey <;> simp [keyDownInput, h, hfoc, hc, hsk]
      · cases hsk : e.shiftKey <;> cases hck : e.ctrlKey <;>
          simp [keyDownInput, h, hfoc, ha, hsk, hck]

/-- C6 witness: Shift+Z on a concrete non-focused cell dispatches `redo`
and sends the `Redo` command. -/
theorem keyDownInput_undo_redo_on_z_witness :
    (keyDownInput sampleEnv (mkProps CellType.code (.str "x = 1") true false false "dark")
        Option.none "cell-1"
        { code := "z", shiftKey := true, ctrlKey := false, altKey := false,
          metaKey := false, editorInfo := Option.none }).1 =
      [UIAction.redo, UIAction.sendCommand NativeCommandType.Redo "keyboard"] :=
  (keyDownInput_undo_redo_on_z sampleEnv
      (mkProps CellType.code (.str "x = 1") true false false "dark")
      Option.none "cell-1"
      { code := "z", shiftKey := true, ctrlKey := false, altKey := false,
        metaKey := false, editorInfo := Option.none }
      (Or.inl rfl)).2.1 rfl rfl rfl rfl
